import Mathlib

/-!
Verification of the meeting-preparation assistant (src/meeting_agent.py).

The Python source is shallowly embedded below. Text is modelled as `String`
(Python `str`), except where a claim is about character counts and slicing,
where the faithful sequence model `List Char` is used (Python strings are
sequences of code points). Fallible external effects (file writes, the
generation backend, PDF extraction) are modelled as explicit outcome
parameters; `try/except` blocks become pattern matches on these outcomes.
-/

set_option maxHeartbeats 1000000

/-! ## Text truncation (meeting_agent.py lines 18, 123-126) -/

/-- Module constant MAX_DOCUMENT_CHARS (line 18). -/
def MAX_DOCUMENT_CHARS : Nat := 6000

/-- The fixed truncation marker appended by `_truncate_text` (line 126). -/
def truncationMarker : List Char := "\n\n...[truncated]...".data

/-- Embedding of `_truncate_text(value, max_chars)` (lines 123-126):
if `len(value) <= max_chars` return `value`, else `value[:max_chars]`
followed by the marker. -/
def truncate_text (value : List Char) (maxChars : Nat) : List Char :=
  if value.length ≤ maxChars then value
  else value.take maxChars ++ truncationMarker

/-! ## History entries and the history store (lines 21-27, 118-120, 167-172) -/

/-- A history record as built at lines 725-733 and 927-935 of the source. -/
structure Entry where
  timestamp : String
  company : String
  objective : String
  attendees : String
  focusAreas : String
  documents : List String
  result : String
deriving DecidableEq, Repr

/-- The persistence error raised by a failing `HISTORY_FILE.write_text`
(line 120); `_write_history_file` has no exception handler, so the
exception escapes `_save_meeting_to_history`. -/
inductive PersistErr where
  | writeFailed
deriving DecidableEq, Repr

/-- The history state: the in-memory `st.session_state["meeting_history"]`
list and the last successfully persisted contents of HISTORY_FILE. -/
structure HistState where
  memory : List Entry
  file : List Entry
deriving DecidableEq, Repr

/-- Embedding of `_save_meeting_to_history(entry)` (lines 167-172):
`entries.insert(0, entry)`, cap with `entries[:20]`, store the capped list
in session state, then `_write_history_file(entries)`. The write is the
only fallible step and is not wrapped in try/except; `writeOk` is the
outcome of the underlying file write. On a failed write the in-memory
list has already been updated and the exception propagates (second
component `some`). -/
def save_meeting_to_history (entry : Entry) (s : HistState) (writeOk : Bool) :
    HistState × Option PersistErr :=
  let entries := (entry :: s.memory).take 20
  if writeOk then ({ memory := entries, file := entries }, none)
  else ({ memory := entries, file := s.file }, some PersistErr.writeFailed)

/-- Folding repeated (successful) appends over the history store; used to
state properties of sequences of `append` calls. -/
def histAfter (es : List Entry) (s : HistState) : HistState :=
  es.foldl (fun st e => (save_meeting_to_history e st true).1) s

/-- A concrete entry used in counterexamples and witnesses. -/
def e0ent : Entry :=
  { timestamp := "", company := "", objective := "", attendees := ""
    focusAreas := "", documents := [], result := "" }

/-! ## Result normalization (`_result_to_markdown`, lines 30-57) -/

/-- Outcome of `getattr(result, attr, None)` wrapped in try/except
(lines 41-44): the attribute may be absent (getattr default None), the
access may raise (caught, val = None), or it may hold a non-string or a
string value. -/
inductive GetAttrOutcome where
  | missing
  | raises
  | nonString
  | strVal (s : String)
deriving DecidableEq, Repr

instance {ε α : Type} [DecidableEq ε] [DecidableEq α] : DecidableEq (Except ε α) := by
  intro a b
  cases a <;> cases b
  case ok.ok x y =>
    exact if h : x = y then Decidable.isTrue (by rw [h])
      else Decidable.isFalse (by intro hc; cases hc; exact h rfl)
  case error.error x y =>
    exact if h : x = y then Decidable.isTrue (by rw [h])
      else Decidable.isFalse (by intro hc; cases hc; exact h rfl)
  case ok.error x y => exact Decidable.isFalse (by intro hc; cases hc)
  case error.ok x y => exact Decidable.isFalse (by intro hc; cases hc)

/-- A duck-typed CrewAI result object as probed by `_result_to_markdown`:
the four text-bearing attributes, the optional `to_dict` export (absent,
raising, or yielding a JSON dump string), and the `str(result)` fallback
(which may itself raise). -/
structure ResultObj where
  raw : GetAttrOutcome
  final_output : GetAttrOutcome
  result : GetAttrOutcome
  output : GetAttrOutcome
  to_dict : Option (Except Unit String)
  strConv : Except Unit String
deriving DecidableEq, Repr

/-- A Python value reaching `_result_to_markdown`: a plain `str` or a
result object. -/
inductive PyResult where
  | pyStr (s : String)
  | obj (o : ResultObj)
deriving DecidableEq, Repr

/-- Model of Python `str.strip()`: drop whitespace characters from both
ends (on the code-point sequence). -/
def pyStrip (s : String) : String :=
  String.mk (((s.data.dropWhile Char.isWhitespace).reverse.dropWhile
    Char.isWhitespace).reverse)

/-- The per-attribute test at line 45: `isinstance(val, str) and val.strip()`;
yields the (unstripped) value when it is a string that is non-blank. -/
def attrText : GetAttrOutcome → Option String
  | GetAttrOutcome.strVal s => if pyStrip s = "" then none else some s
  | _ => none

/-- Embedding of `_result_to_markdown(result)` (lines 30-57): return a
plain string directly; otherwise try `raw`, `final_output`, `result`,
`output` in order, returning the first non-blank string; then try the
`to_dict` JSON export; then `str(result)`; and return `""` if even that
raises. Total by construction: every fallible step is matched. -/
def result_to_markdown (r : PyResult) : String :=
  match r with
  | PyResult.pyStr s => s
  | PyResult.obj o =>
    match attrText o.raw with
    | some s => s
    | none =>
    match attrText o.final_output with
    | some s => s
    | none =>
    match attrText o.result with
    | some s => s
    | none =>
    match attrText o.output with
    | some s => s
    | none =>
    match o.to_dict with
    | some (Except.ok d) => d
    | _ =>
      match o.strConv with
      | Except.ok s => s
      | Except.error _ => ""

/-- Python truthiness of a result value (used by `if result:` at
lines 710, 896, 994, 1029): empty strings are falsy, objects truthy. -/
def pyTruthy : PyResult → Bool
  | PyResult.pyStr s => !s.isEmpty
  | PyResult.obj _ => true

/-- Concrete object exposing only a non-blank `raw`: used to witness
normalization. -/
def objRawOnly : ResultObj :=
  { raw := GetAttrOutcome.strVal "hello", final_output := GetAttrOutcome.missing
    result := GetAttrOutcome.missing, output := GetAttrOutcome.missing
    to_dict := none, strConv := Except.ok "fallback" }

/-- Concrete object whose `raw` is the non-empty but blank string chr(32):
used to compare the claim's wording with the code. -/
def objBlankRaw : ResultObj :=
  { raw := GetAttrOutcome.strVal " ", final_output := GetAttrOutcome.missing
    result := GetAttrOutcome.missing, output := GetAttrOutcome.missing
    to_dict := none, strConv := Except.ok "OBJ" }

/-! ## UTF-8 decoding and document ingestion (lines 129-153) -/

/-- A continuation byte 0x80-0xBF. -/
def isCont (b : Nat) : Bool := 0x80 ≤ b && b < 0xC0

/-- Allowed first continuation byte of a 3-byte sequence (per the Unicode
well-formedness table: 0xE0 restricts to 0xA0-0xBF, 0xED to 0x80-0x9F,
excluding overlongs and surrogates). -/
def cont1Ok3 (b c1 : Nat) : Bool :=
  if b = 0xE0 then 0xA0 ≤ c1 && c1 < 0xC0
  else if b = 0xED then 0x80 ≤ c1 && c1 < 0xA0
  else isCont c1

/-- Allowed first continuation byte of a 4-byte sequence (0xF0 restricts
to 0x90-0xBF, 0xF4 to 0x80-0x8F, excluding overlongs and values beyond
U+10FFFF). -/
def cont1Ok4 (b c1 : Nat) : Bool :=
  if b = 0xF0 then 0x90 ≤ c1 && c1 < 0xC0
  else if b = 0xF4 then 0x80 ≤ c1 && c1 < 0x90
  else isCont c1

/-- One UTF-8 decoding step on lead byte `b` with following bytes `bs`:
returns the characters emitted (the decoded scalar, or `err` for the
maximal subpart of an ill-formed sequence) and how many bytes of `bs`
were consumed in addition to the lead byte. -/
def utf8Step (err : List Char) (b : Nat) (bs : List Nat) : List Char × Nat :=
  if b < 0x80 then ([Char.ofNat b], 0)
  else if b < 0xC2 then (err, 0)
  else if b < 0xE0 then
    match bs with
    | [] => (err, 0)
    | c1 :: _ =>
      if isCont c1 then ([Char.ofNat ((b - 0xC0) * 0x40 + (c1 - 0x80))], 1)
      else (err, 0)
  else if b < 0xF0 then
    match bs with
    | [] => (err, 0)
    | [c1] => if cont1Ok3 b c1 then (err, 1) else (err, 0)
    | c1 :: c2 :: _ =>
      if cont1Ok3 b c1 then
        if isCont c2 then
          ([Char.ofNat ((b - 0xE0) * 0x1000 + (c1 - 0x80) * 0x40 + (c2 - 0x80))], 2)
        else (err, 1)
      else (err, 0)
  else if b < 0xF5 then
    match bs with
    | [] => (err, 0)
    | [c1] => if cont1Ok4 b c1 then (err, 1) else (err, 0)
    | [c1, c2] =>
      if cont1Ok4 b c1 then (if isCont c2 then (err, 2) else (err, 1))
      else (err, 0)
    | c1 :: c2 :: c3 :: _ =>
      if cont1Ok4 b c1 then
        if isCont c2 then
          if isCont c3 then
            ([Char.ofNat ((b - 0xF0) * 0x40000 + (c1 - 0x80) * 0x1000
                + (c2 - 0x80) * 0x40 + (c3 - 0x80))], 3)
          else (err, 2)
        else (err, 1)
      else (err, 0)
  else (err, 0)

/-- Fuel-driven decoding loop: every step consumes at least the lead
byte, so fuel equal to the input length always suffices. -/
def utf8DecodeAux (err : List Char) : Nat → List Nat → List Char
  | 0, _ => []
  | _, [] => []
  | fuel + 1, b :: bs =>
    (utf8Step err b bs).1
      ++ utf8DecodeAux err fuel (bs.drop (utf8Step err b bs).2)

/-- UTF-8 decoder modelling CPython's `bytes.decode("utf-8", errors=...)`:
well-formed sequences decode to their scalar value; each maximal subpart
of an ill-formed sequence contributes `err` (so `err = []` models
`errors="ignore"` and `err = [U+FFFD]` models `errors="replace"`),
resynchronizing at the byte that made the sequence ill-formed. -/
def utf8DecodeWith (err : List Char) (input : List Nat) : List Char :=
  utf8DecodeAux err input.length input

/-- `file_bytes.decode("utf-8", errors="ignore")` (line 146): undecodable
byte sequences are dropped; this never raises. -/
def decodeIgnore (bs : List Nat) : String :=
  String.mk (utf8DecodeWith [] bs)

/-- The spec-following variant for comparison with the source: decoding
that replaces each undecodable byte sequence with U+FFFD
(`errors="replace"`). -/
def decodeReplace (bs : List Nat) : String :=
  String.mk (utf8DecodeWith [Char.ofNat 0xFFFD] bs)

/-- An uploaded file blob as seen by `_extract_supporting_documents`:
`uploaded.name` and `uploaded.getvalue()`. -/
structure UploadedFile where
  name : String
  bytes : List Nat
deriving DecidableEq, Repr

/-- A SupportingDocument record `{"name": ..., "content": ...}` (line 152). -/
structure SupportingDocument where
  name : String
  content : String
deriving DecidableEq, Repr

/-- `name.lower().endswith(".pdf")` (line 137), on the code-point
sequence: lowercase every character, then test the four-character
suffix. -/
def nameIsPdf (n : String) : Bool :=
  ".pdf".data.isSuffixOf (n.data.map Char.toLower)

/-- Embedding of `_extract_supporting_documents(uploaded_files)`
(lines 129-153). `pdfEx` is the external pypdf page-text extraction
(the joined page texts, or a raised exception). Returns the ordered
document list and the list of file names for which `st.warning` was
emitted. Empty blobs are skipped; PDF extraction failures warn and skip;
the non-PDF arm decodes with `errors="ignore"`, which cannot raise, so
its `except` clause is unreachable; files whose stripped text is empty
are silently dropped. -/
def extract_supporting_documents (pdfEx : List Nat → Except Unit String) :
    List UploadedFile → List SupportingDocument × List String
  | [] => ([], [])
  | f :: rest =>
    if f.bytes = [] then extract_supporting_documents pdfEx rest
    else if nameIsPdf f.name then
      match pdfEx f.bytes with
      | Except.error _ =>
        ((extract_supporting_documents pdfEx rest).1,
          f.name :: (extract_supporting_documents pdfEx rest).2)
      | Except.ok t =>
        if pyStrip t = "" then extract_supporting_documents pdfEx rest
        else ({ name := f.name, content := pyStrip t }
            :: (extract_supporting_documents pdfEx rest).1,
          (extract_supporting_documents pdfEx rest).2)
    else
      if pyStrip (decodeIgnore f.bytes) = "" then extract_supporting_documents pdfEx rest
      else ({ name := f.name, content := pyStrip (decodeIgnore f.bytes) }
          :: (extract_supporting_documents pdfEx rest).1,
        (extract_supporting_documents pdfEx rest).2)

/-- The spec-following variant of document extraction for comparison with
the source: identical except that the non-PDF arm decodes replacing
undecodable byte sequences (the spec's wording) instead of ignoring them. -/
def extract_supporting_documents_replacing (pdfEx : List Nat → Except Unit String) :
    List UploadedFile → List SupportingDocument × List String
  | [] => ([], [])
  | f :: rest =>
    if f.bytes = [] then extract_supporting_documents_replacing pdfEx rest
    else if nameIsPdf f.name then
      match pdfEx f.bytes with
      | Except.error _ =>
        ((extract_supporting_documents_replacing pdfEx rest).1,
          f.name :: (extract_supporting_documents_replacing pdfEx rest).2)
      | Except.ok t =>
        if pyStrip t = "" then extract_supporting_documents_replacing pdfEx rest
        else ({ name := f.name, content := pyStrip t }
            :: (extract_supporting_documents_replacing pdfEx rest).1,
          (extract_supporting_documents_replacing pdfEx rest).2)
    else
      if pyStrip (decodeReplace f.bytes) = "" then extract_supporting_documents_replacing pdfEx rest
      else ({ name := f.name, content := pyStrip (decodeReplace f.bytes) }
          :: (extract_supporting_documents_replacing pdfEx rest).1,
        (extract_supporting_documents_replacing pdfEx rest).2)

/-- A dummy external PDF extractor used at concrete inputs (never reached
on non-PDF file names). -/
def pdfExDummy : List Nat → Except Unit String := fun _ => Except.error ()

/-! ## Reading the persisted history (`_read_history_file`, lines 21-27) -/

/-- A JSON value as produced by `json.loads`. -/
inductive Json where
  | null
  | jbool (b : Bool)
  | jnum (n : Int)
  | jstr (s : String)
  | arr (elems : List Json)
  | dict (fields : List (String × Json))

/-- The observable state of HISTORY_FILE when `_read_history_file` runs:
missing, present but unreadable (`read_text` raises), or present with
string content. -/
inductive HistoryFileState where
  | missing
  | unreadable
  | content (s : String)

/-- Embedding of `_read_history_file()` (lines 21-27). `parse` is the
external `json.loads` (stdlib), returning `none` when it raises. A
missing file returns `[]` before the `try`; a raising `read_text` or
`json.loads` is caught by the bare `except` and yields `[]`; otherwise
the parsed value is returned as-is. No error escapes: every fallible
step is matched. -/
def read_history_file (parse : String → Option Json) (fs : HistoryFileState) : Json :=
  match fs with
  | HistoryFileState.missing => Json.arr []
  | HistoryFileState.unreadable => Json.arr []
  | HistoryFileState.content s =>
    match parse s with
    | none => Json.arr []
    | some v => v

/-- A concrete stand-in for `json.loads` that always raises; used at
concrete inputs. -/
def parseAlwaysNone : String → Option Json := fun _ => none

/-! ## Directive assembly (lines 593-607) -/

/-- Directive emitted when the live-intelligence toggle is on (lines 594-597). -/
def dirLive : String :=
  "Incorporate the most recent news, market movements, and growth signals discovered via live search."

/-- Directive emitted when the regulatory/compliance toggle is on (lines 598-601). -/
def dirReg : String :=
  "Highlight regulatory, compliance, and localization considerations that could influence the meeting."

/-- Directive emitted when historical notes are supplied (lines 602-605). -/
def dirNotes : String :=
  "Bridge insights with the historical notes provided to emphasize continuity and momentum."

/-- Embedding of the `context_directives` list construction (lines 593-605):
one append per active condition, in the fixed order live-updates,
regulatory, notes (a non-empty `meeting_notes` string is truthy). -/
def context_directives (includeLive includeReg : Bool) (meetingNotes : String) :
    List String :=
  (if includeLive then [dirLive] else [])
    ++ (if includeReg then [dirReg] else [])
    ++ (if meetingNotes ≠ "" then [dirNotes] else [])

/-- Embedding of `context_directives_text` (line 607): join the bullets
with newlines, falling back (Python `or`) to the fixed sentence when the
join is empty, which happens exactly when no directive is active. -/
def context_directives_text (includeLive includeReg : Bool) (meetingNotes : String) :
    String :=
  let joined := String.intercalate "\n"
    ((context_directives includeLive includeReg meetingNotes).map (fun d => "- " ++ d))
  if joined = "" then "- Focus on actionable intelligence." else joined

/-! ## The sequential pipeline and the Prepare Meeting handler (lines 864-938) -/

/-- Modelled from the spec: the Task Pipeline runs its Tasks strictly in
order and aborts at the first Task failure, surfacing that failure as the
single pipeline-level error; on success it yields the ordered outputs.
(The runner itself is the external crewai `Crew.kickoff` with
`Process.sequential`, not part of this repository.) -/
def runSequential : List (Except String String) → Except String (List String)
  | [] => Except.ok []
  | Except.error e :: _ => Except.error e
  | Except.ok t :: rest => (runSequential rest).map (fun l => t :: l)

/-- The observable outcome of one press of the Prepare Meeting button:
the resulting history state, the displayed result markdown (if any), the
`st.error` messages emitted, and a persistence exception that escaped
the handler (if any). -/
structure PrepareOutcome where
  state : HistState
  resultText : Option String
  errors : List String
  raised : Option PersistErr
deriving DecidableEq, Repr

/-- Embedding of the Prepare Meeting handler (lines 885-938). Missing
company/objective short-circuits with a warning (not an error). The
kickoff (`kick`) either raises - caught at lines 892-894, reported by a
single `st.error`, `result = None` - or returns a result object. A falsy
result displays and saves nothing. A truthy result is normalized,
displayed, recorded as a history entry built at lines 927-935, and saved;
presentation-only calls (download button, slide generation) perform no
state mutation and are omitted. -/
def prepareMeeting (company objective attendees focusAreas : String)
    (docNames : List String) (timestamp : String)
    (kick : Except String PyResult) (writeOk : Bool) (s : HistState) :
    PrepareOutcome :=
  if company = "" ∨ objective = "" then
    { state := s, resultText := none, errors := [], raised := none }
  else
    match kick with
    | Except.error e =>
      { state := s, resultText := none, errors := [e], raised := none }
    | Except.ok r =>
      if pyTruthy r then
        let text := result_to_markdown r
        let entry : Entry :=
          { timestamp := timestamp, company := company, objective := objective
            attendees := attendees, focusAreas := focusAreas
            documents := docNames, result := text }
        let saved := save_meeting_to_history entry s writeOk
        { state := saved.1, resultText := some text, errors := [], raised := saved.2 }
      else
        { state := s, resultText := none, errors := [], raised := none }

/-- A fixed conversion from pipeline outputs to a result value, used when
instantiating theorems at concrete inputs. -/
def mkConst : List String → PyResult := fun _ => PyResult.pyStr ""

/-! ## Ancillary one-shot handlers (lines 675-735, 967-1032) -/

/-- One turn of the practice session (`{"role": ..., "content": ...}`). -/
structure Turn where
  role : String
  content : String
deriving DecidableEq, Repr

/-- The in-memory session state the ancillary handlers can touch: the
practice-session turn list and the meeting-history store. -/
structure SessionState where
  practice : List Turn
  meetingHist : HistState
deriving DecidableEq, Repr

/-- Embedding of the Score-my-response handler (lines 1000-1032): guarded
by `score_it and user_resp.strip()`; the user's turn is appended to the
practice list BEFORE the generation call; a raising kickoff is caught
(lines 1024-1028) and reported via one `st.error`, appending no coach
turn; a truthy result appends the coach feedback turn. -/
def scoreResponse (userResp : String) (kick : Except String PyResult)
    (s : SessionState) : SessionState × List String :=
  if pyStrip userResp = "" then (s, [])
  else
    let s1 := { s with practice := s.practice ++ [{ role := "you", content := userResp }] }
    match kick with
    | Except.error e => (s1, [e])
    | Except.ok r =>
      if pyTruthy r then
        ({ s1 with practice := s1.practice
            ++ [{ role := "coach", content := result_to_markdown r }] }, [])
      else (s1, [])

/-- Embedding of the Ask-next-objection handler (lines 967-997): a raising
kickoff is caught (lines 989-993) and reported via one `st.error`; only a
truthy result appends a coach turn. -/
def askNextObjection (kick : Except String PyResult) (s : SessionState) :
    SessionState × List String :=
  match kick with
  | Except.error e => (s, [e])
  | Except.ok r =>
    if pyTruthy r then
      ({ s with practice := s.practice
          ++ [{ role := "coach", content := result_to_markdown r }] }, [])
    else (s, [])

/-- Embedding of the transcript-summarization handler (lines 683-735):
guarded by `extract_now and transcript_text.strip()`; a raising kickoff
is caught (lines 705-709) and reported via one `st.error`; a truthy
result is displayed and, when the save toggle is set, stored in the
history via `_save_meeting_to_history` with the entry of lines 725-733. -/
def summarizeTranscript (transcript : String) (saveFlag : Bool)
    (company objective attendees focusAreas timestamp : String)
    (kick : Except String PyResult) (writeOk : Bool) (s : SessionState) :
    SessionState × List String :=
  if pyStrip transcript = "" then (s, [])
  else
    match kick with
    | Except.error e => (s, [e])
    | Except.ok r =>
      if pyTruthy r then
        let text := result_to_markdown r
        if saveFlag then
          let entry : Entry :=
            { timestamp := timestamp, company := company
              objective := objective ++ " (Transcript Summary)"
              attendees := attendees, focusAreas := focusAreas
              documents := [], result := text }
          ({ s with meetingHist := (save_meeting_to_history entry s.meetingHist writeOk).1 }, [])
        else (s, [])
      else (s, [])

/-- The empty session state, used at concrete inputs. -/
def ssInit : SessionState :=
  { practice := [], meetingHist := { memory := [], file := [] } }

/-! ## Theorems -/

/-- Claim C2 (amended): `truncate_text` returns the text unchanged when its
length is within the budget; otherwise it returns exactly the first `b`
characters followed by the fixed truncation marker, so the result length
is `b` plus the marker length. (Purity and determinism hold because the
embedding is a function of its arguments alone.) -/
theorem c2_truncate_spec (t : List Char) (b : Nat) :
    (t.length ≤ b → truncate_text t b = t)
    ∧ (b < t.length → truncate_text t b = t.take b ++ truncationMarker
        ∧ (truncate_text t b).length = b + truncationMarker.length) := by
  constructor
  · intro h
    simp [truncate_text, h]
  · intro h
    have hn : ¬ t.length ≤ b := Nat.not_le.mpr h
    refine ⟨by simp [truncate_text, hn], ?_⟩
    simp [truncate_text, hn, List.length_append, List.length_take,
      Nat.min_eq_left (Nat.le_of_lt h)]

/-- Witness for C2: the budget-3 truncation of the five-character text
"hello" is its first three characters plus the marker, of length 3 plus
the marker length. -/
theorem c2_truncate_spec_witness :
    3 < ("hello".data).length
    ∧ (truncate_text "hello".data 3 = ("hello".data).take 3 ++ truncationMarker
        ∧ (truncate_text "hello".data 3).length = 3 + truncationMarker.length) :=
  ⟨by decide, (c2_truncate_spec "hello".data 3).2 (by decide)⟩

/-- Counterexample to C2 as stated: the "if and only if" fails. For the
text consisting of the character a followed by the truncation marker
itself, truncation with budget 1 returns the text unchanged although its
length exceeds the budget. -/
theorem c2_claim_counterexample :
    truncate_text ('a' :: truncationMarker) 1 = 'a' :: truncationMarker
    ∧ ¬ (('a' :: truncationMarker).length ≤ 1) := by decide

/-- Claim C10: after an append that completes (the file write succeeds),
the in-memory history list and the persisted list are equal, the file
holds exactly the capped list `(entry :: old)[:20]` (never the uncapped
one), both are of length at most 20, and no exception escapes. -/
theorem c10_append_syncs_memory_and_file (e : Entry) (s : HistState) :
    ((save_meeting_to_history e s true).1).memory = ((save_meeting_to_history e s true).1).file
    ∧ ((save_meeting_to_history e s true).1).file = (e :: s.memory).take 20
    ∧ ((save_meeting_to_history e s true).1).memory.length ≤ 20
    ∧ (save_meeting_to_history e s true).2 = none := by
  refine ⟨rfl, rfl, ?_, rfl⟩
  simp [save_meeting_to_history]

/-- Claim C6: `_read_history_file` returns the empty list when the history
file is missing or unreadable or its content fails to parse, and returns
the persisted list when the content parses to a list; no failure escapes
(the embedding matches every fallible step, returning a value in all
cases). -/
theorem c6_read_history_spec (parse : String → Option Json) :
    read_history_file parse HistoryFileState.missing = Json.arr []
    ∧ read_history_file parse HistoryFileState.unreadable = Json.arr []
    ∧ (∀ s, parse s = none →
        read_history_file parse (HistoryFileState.content s) = Json.arr [])
    ∧ (∀ s l, parse s = some (Json.arr l) →
        read_history_file parse (HistoryFileState.content s) = Json.arr l) := by
  refine ⟨rfl, rfl, ?_, ?_⟩
  · intro s h
    simp [read_history_file, h]
  · intro s l h
    simp [read_history_file, h]

/-- Witness for C6: unparseable content yields the empty list. -/
theorem c6_read_history_witness :
    parseAlwaysNone "corrupt" = none
    ∧ read_history_file parseAlwaysNone (HistoryFileState.content "corrupt") = Json.arr [] :=
  ⟨rfl, (c6_read_history_spec parseAlwaysNone).2.2.1 "corrupt" rfl⟩

/-- Claim C7 (amended): read-path persistence failures are swallowed (an
unreadable history file yields empty history), but write-path failures
are NOT swallowed: a failing file write inside an append propagates out
of `_save_meeting_to_history` to the caller, after the in-memory list has
already been updated; only a successful write returns without raising. -/
theorem c7_persistence_error_paths (e : Entry) (s : HistState) :
    (save_meeting_to_history e s false).2 = some PersistErr.writeFailed
    ∧ ((save_meeting_to_history e s false).1).memory = (e :: s.memory).take 20
    ∧ ((save_meeting_to_history e s false).1).file = s.file
    ∧ (save_meeting_to_history e s true).2 = none
    ∧ (∀ parse : String → Option Json,
        read_history_file parse HistoryFileState.unreadable = Json.arr []) :=
  ⟨rfl, rfl, rfl, rfl, fun _ => rfl⟩

/-- Counterexample to C7 as stated: at a concrete append whose underlying
file write fails, the failure propagates to the caller (the handler has
no exception guard around `_write_history_file`). -/
theorem c7_claim_counterexample :
    (save_meeting_to_history e0ent { memory := [], file := [] } false).2 ≠ none := by
  decide

/-- Taking `n` of an append absorbs an inner `take n` on the right part. -/
theorem take_append_take {α : Type} (n : Nat) (a l : List α) :
    (a ++ l.take n).take n = (a ++ l).take n := by
  rw [List.take_append_eq_append_take, List.take_append_eq_append_take, List.take_take,
    Nat.min_eq_left (Nat.sub_le n a.length)]

/-- The in-memory history after a sequence of successful appends is the
first 20 of the reversed append sequence prefixed to the initial list. -/
theorem histAfter_memory (es : List Entry) (s : HistState)
    (h : s.memory.length ≤ 20) :
    (histAfter es s).memory = (es.reverse ++ s.memory).take 20 := by
  induction es generalizing s with
  | nil =>
    simp [histAfter, List.take_of_length_le h]
  | cons e es ih =>
    have hstep : histAfter (e :: es) s
        = histAfter es ⟨(e :: s.memory).take 20, (e :: s.memory).take 20⟩ := rfl
    have hlen : ((e :: s.memory).take 20).length ≤ 20 := by
      simp [List.length_take]
    rw [hstep, ih ⟨(e :: s.memory).take 20, (e :: s.memory).take 20⟩ hlen]
    show (es.reverse ++ (e :: s.memory).take 20).take 20
      = ((e :: es).reverse ++ s.memory).take 20
    rw [take_append_take]
    simp [List.reverse_cons, List.append_assoc]

/-- Claim C3 (amended): each append inserts at position 0 and truncates to
the first 20 entries; after more than 20 appends the store holds exactly
20 entries, namely the 20 most recent appends most-recent-first; and,
provided the appended entries are pairwise distinct, every entry appended
at call N-20 or earlier is absent. -/
theorem c3_history_cap_spec (s : HistState) (es : List Entry)
    (hs : s.memory.length ≤ 20) (hn : 20 < es.length) :
    (∀ e st, ((save_meeting_to_history e st true).1).memory = (e :: st.memory).take 20)
    ∧ (histAfter es s).memory = es.reverse.take 20
    ∧ (histAfter es s).memory.length = 20
    ∧ (es.Nodup → ∀ e ∈ es.take (es.length - 20), e ∉ (histAfter es s).memory) := by
  have hmem : (histAfter es s).memory = (es.reverse ++ s.memory).take 20 :=
    histAfter_memory es s hs
  have h20 : 20 ≤ es.reverse.length := by
    simp only [List.length_reverse]
    omega
  have hmem2 : (histAfter es s).memory = es.reverse.take 20 := by
    rw [hmem, List.take_append_of_le_length h20]
  refine ⟨fun e st => rfl, hmem2, ?_, ?_⟩
  · rw [hmem2]
    simp only [List.length_take, List.length_reverse]
    omega
  · intro hnd e hein hcontra
    rw [hmem2, List.take_reverse, List.mem_reverse] at hcontra
    have hdisj : List.Disjoint (es.take (es.length - 20)) (es.drop (es.length - 20)) :=
      List.disjoint_take_drop hnd (Nat.le_refl (es.length - 20))
    exact hdisj hein hcontra

/-- Witness for C3: folding 21 appends over the empty store leaves exactly
20 entries. -/
theorem c3_history_cap_witness :
    (({ memory := [], file := [] } : HistState)).memory.length ≤ 20
    ∧ 20 < (List.replicate 21 e0ent).length
    ∧ (histAfter (List.replicate 21 e0ent) { memory := [], file := [] }).memory.length = 20 :=
  ⟨by decide, by decide,
    (c3_history_cap_spec { memory := [], file := [] } (List.replicate 21 e0ent)
      (by decide) (by decide)).2.2.1⟩

/-- Counterexample to C3 as stated: appending the same entry 21 times from
the empty store (a legal sequence of append calls, N = 21 > 20) leaves
the entry appended at call 1 = N - 20 still present in the store, so
"every entry appended at call N-20 or earlier is absent" fails when
entries repeat. -/
theorem c3_claim_counterexample :
    20 < (List.replicate 21 e0ent).length
    ∧ e0ent ∈ (histAfter (List.replicate 21 e0ent) { memory := [], file := [] }).memory := by
  decide

/-- Claim C4 (amended): result normalization is total — the embedding
handles every fallible probe and returns a string on all inputs — and
behaves as follows: a plain string is returned unchanged; the fields
`raw`, `final_output`, `result`, `output` are probed in that fixed
priority order and the first holding a non-blank string (non-empty after
stripping whitespace) is returned; when none matches, a successful
`to_dict` JSON export is returned; failing that, the generic `str`
conversion; and when even that raises, the empty string. In particular an
object exposing only a `raw` field with non-blank text normalizes to
exactly that text. -/
theorem c4_result_normalization_spec :
    (∀ s, result_to_markdown (PyResult.pyStr s) = s)
    ∧ (∀ o s, o.raw = GetAttrOutcome.strVal s → pyStrip s ≠ "" →
        result_to_markdown (PyResult.obj o) = s)
    ∧ (∀ o s, attrText o.raw = none → o.final_output = GetAttrOutcome.strVal s →
        pyStrip s ≠ "" → result_to_markdown (PyResult.obj o) = s)
    ∧ (∀ o s, attrText o.raw = none → attrText o.final_output = none →
        o.result = GetAttrOutcome.strVal s → pyStrip s ≠ "" →
        result_to_markdown (PyResult.obj o) = s)
    ∧ (∀ o s, attrText o.raw = none → attrText o.final_output = none →
        attrText o.result = none → o.output = GetAttrOutcome.strVal s →
        pyStrip s ≠ "" → result_to_markdown (PyResult.obj o) = s)
    ∧ (∀ o d, attrText o.raw = none → attrText o.final_output = none →
        attrText o.result = none → attrText o.output = none →
        o.to_dict = some (Except.ok d) → result_to_markdown (PyResult.obj o) = d)
    ∧ (∀ o s, attrText o.raw = none → attrText o.final_output = none →
        attrText o.result = none → attrText o.output = none →
        (o.to_dict = none ∨ o.to_dict = some (Except.error ())) →
        o.strConv = Except.ok s → result_to_markdown (PyResult.obj o) = s)
    ∧ (∀ o, attrText o.raw = none → attrText o.final_output = none →
        attrText o.result = none → attrText o.output = none →
        (o.to_dict = none ∨ o.to_dict = some (Except.error ())) →
        o.strConv = Except.error () → result_to_markdown (PyResult.obj o) = "") := by
  refine ⟨fun s => rfl, ?_, ?_, ?_, ?_, ?_, ?_, ?_⟩
  · intro o s h hs
    simp only [result_to_markdown, h]
    simp [attrText, hs]
  · intro o s h1 h2 hs
    simp only [result_to_markdown, h1, h2]
    simp [attrText, hs]
  · intro o s h1 h2 h3 hs
    simp only [result_to_markdown, h1, h2, h3]
    simp [attrText, hs]
  · intro o s h1 h2 h3 h4 hs
    simp only [result_to_markdown, h1, h2, h3, h4]
    simp [attrText, hs]
  · intro o d h1 h2 h3 h4 h5
    simp only [result_to_markdown, h1, h2, h3, h4, h5]
  · intro o s h1 h2 h3 h4 h5 h6
    rcases h5 with h5 | h5 <;>
      simp [result_to_markdown, h1, h2, h3, h4, h5, h6]
  · intro o h1 h2 h3 h4 h5 h6
    rcases h5 with h5 | h5 <;>
      simp [result_to_markdown, h1, h2, h3, h4, h5, h6]

/-- Witness for C4: the concrete object exposing only `raw = "hello"`
normalizes to "hello". -/
theorem c4_result_normalization_witness :
    objRawOnly.raw = GetAttrOutcome.strVal "hello"
    ∧ pyStrip "hello" ≠ ""
    ∧ result_to_markdown (PyResult.obj objRawOnly) = "hello" :=
  ⟨rfl, by decide,
    c4_result_normalization_spec.2.1 objRawOnly "hello" rfl (by decide)⟩

/-- Counterexample to C4 as stated: the code demands a non-BLANK string,
not a non-empty one. For the concrete object whose `raw` holds the
non-empty one-space string and which exposes nothing else, the claim says
normalization returns that raw string, but the code skips it (its strip
is empty) and falls back to the `str` conversion. -/
theorem c4_claim_counterexample :
    objBlankRaw.raw = GetAttrOutcome.strVal " "
    ∧ (" " : String) ≠ ""
    ∧ result_to_markdown (PyResult.obj objBlankRaw) = "OBJ"
    ∧ result_to_markdown (PyResult.obj objBlankRaw) ≠ " " := by
  refine ⟨rfl, by decide, by decide, by decide⟩

/-- Claim C9: the directive list holds one directive per active condition
(live-updates toggle, regulatory toggle, non-empty historical notes), in
that fixed order; each directive is present exactly when its condition is
active; and when no condition is active the rendered bullet text is
exactly the single fallback directive about focusing on actionable
intelligence. -/
theorem c9_context_directives_spec (live reg : Bool) (notes : String) :
    (context_directives live reg notes).length
      = (if live then 1 else 0) + (if reg then 1 else 0) + (if notes ≠ "" then 1 else 0)
    ∧ (dirLive ∈ context_directives live reg notes ↔ live = true)
    ∧ (dirReg ∈ context_directives live reg notes ↔ reg = true)
    ∧ (dirNotes ∈ context_directives live reg notes ↔ notes ≠ "")
    ∧ (context_directives true true notes
        = if notes ≠ "" then [dirLive, dirReg, dirNotes] else [dirLive, dirReg])
    ∧ (live = false → reg = false → notes = "" →
        context_directives_text live reg notes = "- Focus on actionable intelligence.") := by
  have hLR : dirLive ≠ dirReg := by decide
  have hLN : dirLive ≠ dirNotes := by decide
  have hRN : dirReg ≠ dirNotes := by decide
  have hj : String.intercalate "\n" ([] : List String) = "" := rfl
  by_cases hn : notes = "" <;>
    cases live <;> cases reg <;>
      simp_all [context_directives, context_directives_text, dirLive, dirReg, dirNotes]

/-- Witness for C9: with both toggles off and no notes the rendered
directive text is exactly the fallback bullet. -/
theorem c9_context_directives_witness :
    context_directives_text false false "" = "- Focus on actionable intelligence." :=
  (c9_context_directives_spec false false "").2.2.2.2.2 rfl rfl rfl

/-- Claim C1: when any Task of the sequential pipeline fails, the whole
kickoff yields that single failure; the Prepare Meeting handler then
surfaces exactly one error, displays no result text, writes no history
entry (in-memory list and persisted file unchanged), and raises nothing.
History is written only after a successful run. -/
theorem c1_pipeline_failure_preserves_history
    (outs : List (Except String String)) (e : String)
    (mk : List String → PyResult)
    (company objective attendees focusAreas timestamp : String)
    (docNames : List String) (writeOk : Bool) (s : HistState)
    (hc : company ≠ "") (ho : objective ≠ "")
    (hfail : runSequential outs = Except.error e) :
    prepareMeeting company objective attendees focusAreas docNames timestamp
      ((runSequential outs).map mk) writeOk s
      = { state := s, resultText := none, errors := [e], raised := none } := by
  rw [hfail]
  simp [prepareMeeting, hc, ho, Except.map]

/-- Witness for C1: a concrete two-task pipeline whose second task fails
leaves the concrete store untouched and surfaces exactly the one error. -/
theorem c1_pipeline_failure_witness :
    ("Acme" : String) ≠ ""
    ∧ ("Renewal" : String) ≠ ""
    ∧ runSequential [Except.ok "ctx", Except.error "boom"] = Except.error "boom"
    ∧ prepareMeeting "Acme" "Renewal" "" "" [] "2024-01-01"
        ((runSequential [Except.ok "ctx", Except.error "boom"]).map mkConst) true
        { memory := [], file := [] }
      = { state := { memory := [], file := [] }, resultText := none
          errors := ["boom"], raised := none } :=
  ⟨by decide, by decide, rfl,
    c1_pipeline_failure_preserves_history [Except.ok "ctx", Except.error "boom"]
      "boom" mkConst "Acme" "Renewal" "" "" "2024-01-01" [] true
      { memory := [], file := [] } (by decide) (by decide) rfl⟩

/-- Claim C8 (amended): when the generation backend errors, the
objection-generation and transcript-summarization handlers leave the
session state (practice list and history store) exactly unchanged and
surface one error; the response-scoring handler appends the user's
response turn (which it does before invoking the backend) but no coach
turn, surfaces one error, and leaves the history store unchanged. -/
theorem c8_ancillary_error_state (resp e : String) (s : SessionState) :
    (pyStrip resp ≠ "" →
      scoreResponse resp (Except.error e) s
        = ({ s with practice := s.practice ++ [{ role := "you", content := resp }] }, [e]))
    ∧ askNextObjection (Except.error e) s = (s, [e])
    ∧ (∀ t sf c o a f ts wk, pyStrip t ≠ "" →
        summarizeTranscript t sf c o a f ts (Except.error e) wk s = (s, [e])) := by
  refine ⟨?_, rfl, ?_⟩
  · intro h
    simp [scoreResponse, h]
  · intro t sf c o a f ts wk h
    simp [summarizeTranscript, h]

/-- Witness for C8: a failed scoring call on the empty session leaves
exactly the user's turn appended and the error surfaced. -/
theorem c8_ancillary_error_witness :
    pyStrip "hello" ≠ ""
    ∧ scoreResponse "hello" (Except.error "boom") ssInit
      = ({ ssInit with practice := ssInit.practice
            ++ [{ role := "you", content := "hello" }] }, ["boom"]) :=
  ⟨by decide, (c8_ancillary_error_state "hello" "boom" ssInit).1 (by decide)⟩

/-- Counterexample to C8 as stated: after a failed response-scoring call
on the empty practice session the practice list is no longer empty (the
user's turn was appended before the backend call), so the session state
is not "exactly as it was after the last successful operation". -/
theorem c8_claim_counterexample :
    (scoreResponse "hello" (Except.error "boom") ssInit).1.practice ≠ ssInit.practice := by
  decide

/-- Documents extracted from the tail are still extracted when a file is
put in front of the upload list. -/
theorem extract_docs_mono (pdfEx : List Nat → Except Unit String)
    (g : UploadedFile) (rest : List UploadedFile) (d : SupportingDocument)
    (hd : d ∈ (extract_supporting_documents pdfEx rest).1) :
    d ∈ (extract_supporting_documents pdfEx (g :: rest)).1 := by
  simp only [extract_supporting_documents]
  by_cases h1 : g.bytes = []
  · rw [if_pos h1]
    exact hd
  · rw [if_neg h1]
    by_cases h2 : nameIsPdf g.name = true
    · rw [if_pos h2]
      cases hpe : pdfEx g.bytes with
      | error u => exact hd
      | ok t =>
        dsimp only
        by_cases h3 : pyStrip t = ""
        · rw [if_pos h3]
          exact hd
        · rw [if_neg h3]
          exact List.mem_cons_of_mem _ hd
    · rw [if_neg h2]
      by_cases h3 : pyStrip (decodeIgnore g.bytes) = ""
      · rw [if_pos h3]
        exact hd
      · rw [if_neg h3]
        exact List.mem_cons_of_mem _ hd

/-- Claim C5 (amended): ingestion of a non-PDF file cannot fail. First,
every warning ever emitted by the ingestor names a PDF file from the
upload list, so a decode of a non-PDF file never warns and never aborts
the ingestion (in the embedding the ignore-mode decode is total, making
the `except` arm of the non-PDF branch dead code). Second, every non-PDF
file with non-empty bytes whose ignore-mode-decoded text is non-blank is
ingested, with exactly that decoded text (undecodable byte sequences
dropped, not replaced). -/
theorem c5_nonpdf_decode_never_fails (pdfEx : List Nat → Except Unit String)
    (files : List UploadedFile) (f : UploadedFile) :
    (f ∈ files → nameIsPdf f.name = false → f.bytes ≠ [] →
      pyStrip (decodeIgnore f.bytes) ≠ "" →
      ({ name := f.name, content := pyStrip (decodeIgnore f.bytes) } : SupportingDocument)
        ∈ (extract_supporting_documents pdfEx files).1)
    ∧ (∀ w ∈ (extract_supporting_documents pdfEx files).2,
        ∃ g, g ∈ files ∧ nameIsPdf g.name = true ∧ w = g.name) := by
  induction files with
  | nil =>
    constructor
    · intro h
      exact absurd h (List.not_mem_nil f)
    · intro w hw
      exact absurd hw (List.not_mem_nil w)
  | cons g rest ih =>
    constructor
    · intro hmem hpdf hbytes hstrip
      rcases List.mem_cons.mp hmem with heq | hmem2
      · subst heq
        simp only [extract_supporting_documents]
        rw [if_neg hbytes, if_neg (by rw [hpdf]; intro hc; cases hc), if_neg hstrip]
        exact List.mem_cons_self _ _
      · exact extract_docs_mono pdfEx g rest _ (ih.1 hmem2 hpdf hbytes hstrip)
    · intro w hw
      simp only [extract_supporting_documents] at hw
      by_cases h1 : g.bytes = []
      · rw [if_pos h1] at hw
        obtain ⟨g2, hg2, hg2pdf, hg2n⟩ := ih.2 w hw
        exact ⟨g2, List.mem_cons_of_mem _ hg2, hg2pdf, hg2n⟩
      · rw [if_neg h1] at hw
        by_cases h2 : nameIsPdf g.name = true
        · rw [if_pos h2] at hw
          cases hpe : pdfEx g.bytes with
          | error u =>
            rw [hpe] at hw
            rcases List.mem_cons.mp hw with heq | hw2
            · exact ⟨g, List.mem_cons_self _ _, h2, heq⟩
            · obtain ⟨g2, hg2, hg2pdf, hg2n⟩ := ih.2 w hw2
              exact ⟨g2, List.mem_cons_of_mem _ hg2, hg2pdf, hg2n⟩
          | ok t =>
            rw [hpe] at hw
            dsimp only at hw
            by_cases h3 : pyStrip t = ""
            · rw [if_pos h3] at hw
              obtain ⟨g2, hg2, hg2pdf, hg2n⟩ := ih.2 w hw
              exact ⟨g2, List.mem_cons_of_mem _ hg2, hg2pdf, hg2n⟩
            · rw [if_neg h3] at hw
              obtain ⟨g2, hg2, hg2pdf, hg2n⟩ := ih.2 w hw
              exact ⟨g2, List.mem_cons_of_mem _ hg2, hg2pdf, hg2n⟩
        · rw [if_neg h2] at hw
          by_cases h3 : pyStrip (decodeIgnore g.bytes) = ""
          · rw [if_pos h3] at hw
            obtain ⟨g2, hg2, hg2pdf, hg2n⟩ := ih.2 w hw
            exact ⟨g2, List.mem_cons_of_mem _ hg2, hg2pdf, hg2n⟩
          · rw [if_neg h3] at hw
            obtain ⟨g2, hg2, hg2pdf, hg2n⟩ := ih.2 w hw
            exact ⟨g2, List.mem_cons_of_mem _ hg2, hg2pdf, hg2n⟩

/-- Witness for C5: the concrete text file with bytes "hi" is ingested
with content "hi". -/
theorem c5_nonpdf_decode_witness :
    (⟨"a.txt", [104, 105]⟩ : UploadedFile) ∈ [(⟨"a.txt", [104, 105]⟩ : UploadedFile)]
    ∧ nameIsPdf "a.txt" = false
    ∧ ([104, 105] : List Nat) ≠ []
    ∧ pyStrip (decodeIgnore [104, 105]) ≠ ""
    ∧ ({ name := "a.txt", content := pyStrip (decodeIgnore [104, 105]) } : SupportingDocument)
      ∈ (extract_supporting_documents pdfExDummy [⟨"a.txt", [104, 105]⟩]).1 :=
  ⟨List.mem_cons_self _ _, by decide, by decide, by decide,
    (c5_nonpdf_decode_never_fails pdfExDummy [⟨"a.txt", [104, 105]⟩]
        ⟨"a.txt", [104, 105]⟩).1
      (List.mem_cons_self _ _) (by decide) (by decide) (by decide)⟩

/-- Counterexample to C5 as stated: the code decodes with
`errors="ignore"`, dropping undecodable bytes, not replacing them. For
the single uploaded text file with the sole undecodable byte 0xff, the
code decodes it to the empty string and silently drops the file (no
document, no warning), whereas decoding that replaces undecodable byte
sequences yields the non-blank replacement character and would ingest the
file. So an undecodable byte sequence DOES cause the file to be skipped,
and nothing is replaced. -/
theorem c5_claim_counterexample :
    extract_supporting_documents pdfExDummy [⟨"notes.txt", [255]⟩] = ([], [])
    ∧ (extract_supporting_documents_replacing pdfExDummy [⟨"notes.txt", [255]⟩]).1
      = [{ name := "notes.txt", content := "�" }]
    ∧ decodeIgnore [255] = ""
    ∧ decodeReplace [255] = "�" := by
  refine ⟨by decide, by decide, by decide, by decide⟩
